import Mathlib

/-!
# MapaBancos: department map and bank list synchronisation

A shallow embedding of `src/js/app.js` (the application script) and of the
earlier `src/app.js`.  The page state that the script keeps in module level
variables and in the DOM is an explicit record that every handler receives and
returns.  Leaflet and the DOM are modelled only as far as the script observes
them: the path options of every department layer, the children of the
`#bank-list` container and the `#info-panel` fields.  Camera movement
(`setView`, `flyTo`, `flyToBounds`, `fitBounds`) and tooltips are library
effects on the viewport and are not part of the state.
-/

namespace MapaBancos

/-! ## JavaScript values coming from the two JSON resources -/

/-- An integer that a JavaScript number holds exactly: its magnitude is at most
`2^53 - 1`.  On these `String(n)` is the plain decimal numeral. -/
def SafeInteger : Type := { n : Int // n.natAbs ≤ 9007199254740991 }
  deriving DecidableEq, Repr

/-- A property value as `JSON.parse` delivers it.  `undefined` is an absent
property.  Numbers are the safe integers (department codes); fractions, larger
numbers, nested arrays and objects do not occur as codes and are left out. -/
inductive JsValue where
  | undefined
  | null
  | bool (b : Bool)
  | number (n : SafeInteger)
  | string (s : String)
  deriving DecidableEq, Repr

/-- The conversion `String(v)`. -/
def jsString : JsValue → String
  | .undefined => "undefined"
  | .null => "null"
  | .bool true => "true"
  | .bool false => "false"
  | .number n => toString n.val
  | .string s => s

/-- The truthiness test of `if (v)` and of `v || w`: the falsy values are
`undefined`, `null`, `false`, `0` and the empty string. -/
def truthy : JsValue → Bool
  | .undefined => false
  | .null => false
  | .bool b => b
  | .number n => decide (n.val ≠ 0)
  | .string s => decide (s ≠ "")

/-- The operator `a || b`: `a` when it is truthy, else `b`. -/
def jsOr (a b : JsValue) : JsValue :=
  if truthy a then a else b

/-! ## Data model -/

/-- One record of `data/bancos.json`. -/
structure Bank where
  bank : String
  name : String
  address : String
  dane_code : JsValue
  deriving DecidableEq, Repr

/-- The `properties` object of a GeoJSON feature, restricted to the keys the
script reads for the department code. -/
structure Properties where
  DPTO_CCDGO : JsValue
  COD_DANE : JsValue
  id : JsValue
  deriving DecidableEq, Repr

/-- A GeoJSON department feature as parsed.  The member `properties` is an
object or, as GeoJSON allows, `null` (here `none`, which also stands for an
absent member). -/
structure Feature where
  properties : Option Properties
  deriving DecidableEq, Repr

/-- Leaflet path options touched by the script.  A field that a style object
does not mention is `none`.  Numeric values are kept in tenths, so `1.5` is
`15` and `0.6` is `6`. -/
structure PathOptions where
  fillColor : Option String
  weight : Option Nat
  opacity : Option Nat
  color : Option String
  dashArray : Option String
  fillOpacity : Option Nat
  deriving DecidableEq, Repr

/-- The constant `styleDefault`: department with at least one bank. -/
def styleDefault : PathOptions :=
  { fillColor := some "#D2DE38", weight := some 20, opacity := some 10,
    color := some "white", dashArray := some "3", fillOpacity := some 6 }

/-- The constant `styleNoBank`: department without banks. -/
def styleNoBank : PathOptions :=
  { fillColor := some "#333333", weight := some 15, opacity := some 10,
    color := some "#666666", dashArray := some "3", fillOpacity := some 7 }

/-- The constant `styleHighlight`: the selected department. -/
def styleHighlight : PathOptions :=
  { fillColor := none, weight := some 50, opacity := none,
    color := some "#F58634", dashArray := some "", fillOpacity := some 7 }

/-- Defaults of a freshly created Leaflet polygon (`L.Path` and `L.Polygon`
options), which `L.geoJson` stores as `layer.defaultOptions`. -/
def pathDefaults : PathOptions :=
  { fillColor := none, weight := some 30, opacity := some 10,
    color := some "#3388ff", dashArray := none, fillOpacity := some 2 }

/-- One department polygon of the layer group of `src/js/app.js`.  `L.geoJson`
calls `getFeatureStyle(feature)` before it keeps a layer, and that call throws
unless `feature.properties` is an object; so a layer of this script always
holds the properties object of its feature, kept here as `properties`. -/
structure Layer where
  properties : Properties
  defaultOptions : PathOptions
  options : PathOptions
  deriving DecidableEq, Repr

/-- The member `layer.feature`. -/
def Layer.feature (layer : Layer) : Feature :=
  { properties := some layer.properties }

/-- A child of the `#bank-list` container: a `div.bank-item` created by
`renderBankList` (with the bank its click handler closes over and whether it
has the class `active`), or markup assigned through `innerHTML`. -/
inductive ListNode where
  | bankItem (bank : Bank) (active : Bool)
  | html (markup : String)
  deriving DecidableEq, Repr

/-- The `#info-panel` element: the text of its three fields and whether it has
the class `hidden`. -/
structure InfoPanel where
  bankName : String
  bankAddress : String
  deptName : String
  hidden : Bool
  deriving DecidableEq, Repr

/-- Module level variables of the script together with the DOM it writes.
`departmentsLayer` is `none` while the variable is still `undefined`.
`activeDaneCodes` is the `Set` in insertion order.  `calls` records, in order,
every entry into one of the two rendering functions. -/
structure AppState where
  banksData : List Bank
  activeDaneCodes : List String
  departmentsLayer : Option (List Layer)
  bankList : List ListNode
  infoPanel : InfoPanel
  console : List String
  calls : List String
  deriving DecidableEq, Repr

/-- The state right after the script has been evaluated and before `loadData`
resolves: `banksData = []`, an empty `activeDaneCodes`, no layer, and the DOM
as the page delivers it. -/
def pageState (bankList : List ListNode) (infoPanel : InfoPanel) : AppState :=
  { banksData := [], activeDaneCodes := [], departmentsLayer := none,
    bankList := bankList, infoPanel := infoPanel, console := [], calls := [] }

/-! ## Leaflet, DOM and language primitives -/

/-- The error that reading a key of `feature.properties` throws when the
member is `null` or absent. -/
def propertiesTypeError : String :=
  "TypeError: cannot read a key of feature.properties, which is null"

/-- Equality of two outcomes, a value or a thrown error, is decidable. -/
@[instance] def decEqOutcome {α : Type} [DecidableEq α] : DecidableEq (Except String α)
  | .ok a, .ok b =>
    if h : a = b then isTrue (by rw [h]) else isFalse (by intro h2; cases h2; exact h rfl)
  | .error a, .error b =>
    if h : a = b then isTrue (by rw [h]) else isFalse (by intro h2; cases h2; exact h rfl)
  | .ok _, .error _ => isFalse (by intro h; cases h)
  | .error _, .ok _ => isFalse (by intro h; cases h)

/-- The expression `feature.properties` in a position where a key of it is
read next: the object, or the thrown `TypeError`. -/
def Feature.props (feature : Feature) : Except String Properties :=
  match feature.properties with
  | some props => .ok props
  | none => .error propertiesTypeError

/-- The method `layer.setStyle(style)`: every key present in `style` overwrites
the option of the layer. -/
def setStyle (options style : PathOptions) : PathOptions :=
  { fillColor := style.fillColor.orElse (fun _ => options.fillColor),
    weight := style.weight.orElse (fun _ => options.weight),
    opacity := style.opacity.orElse (fun _ => options.opacity),
    color := style.color.orElse (fun _ => options.color),
    dashArray := style.dashArray.orElse (fun _ => options.dashArray),
    fillOpacity := style.fillOpacity.orElse (fun _ => options.fillOpacity) }

/-- The method `Set.prototype.add` on the insertion ordered list of members. -/
def setAdd (set : List String) (x : String) : List String :=
  if set.contains x then set else set ++ [x]

/-- The method `Set.prototype.has`. -/
def setHas (set : List String) (x : String) : Bool :=
  set.contains x

/-- The call `el.classList.remove('active')` on a child of the list. -/
def removeActive : ListNode → ListNode
  | .bankItem bank _ => .bankItem bank false
  | .html markup => .html markup

/-- The call `el.classList.add('active')` on a child of the list. -/
def addActive : ListNode → ListNode
  | .bankItem bank _ => .bankItem bank true
  | .html markup => .html markup

/-! ## The functions of `src/js/app.js` -/

/-- The local `code` of `getFeatureStyle`:
`String(props.DPTO_CCDGO || props.COD_DANE || props.id)`. -/
def getFeatureStyle.code (props : Properties) : String :=
  jsString (jsOr (jsOr props.DPTO_CCDGO props.COD_DANE) props.id)

/-- The statements of `getFeatureStyle` that follow `const props =
feature.properties`, for a `props` that is an object; they read the module
variable `activeDaneCodes`. -/
def getFeatureStyle.withProps (s : AppState) (props : Properties) : PathOptions :=
  let code := getFeatureStyle.code props
  if setHas s.activeDaneCodes code then styleDefault else styleNoBank

/-- The function `getFeatureStyle(feature)`.  It reads `props.DPTO_CCDGO`
without a guard, so it throws when `feature.properties` is `null`. -/
def getFeatureStyle (s : AppState) (feature : Feature) : Except String PathOptions := do
  let props ← feature.props
  pure (getFeatureStyle.withProps s props)

/-- The call `departmentsLayer.resetStyle(layer)`: the options go back to
`layer.defaultOptions` and the style function of the group is applied.  The
feature of a layer has a properties object, so `getFeatureStyle` returns. -/
def resetStyle (s : AppState) (layer : Layer) : Layer :=
  { layer with
    options := setStyle layer.defaultOptions (getFeatureStyle.withProps s layer.properties) }

/-- The loop of `L.geoJson` over the features: for each one a polygon is
created, its default options are remembered, `getFeatureStyle` styles it and
`onEachFeature` reads `feature.properties.name`.  The first feature without a
properties object makes the constructor throw. -/
def initMapLayer.addData (s : AppState) : List Feature → Except String (List Layer)
  | [] => pure []
  | feature :: rest => do
    let style ← getFeatureStyle s feature
    let props ← feature.props
    let layer : Layer :=
      { properties := props, defaultOptions := pathDefaults,
        options := setStyle pathDefaults style }
    let layers ← initMapLayer.addData s rest
    pure (layer :: layers)

/-- The function `initMapLayer(geoData)`: `departmentsLayer` is assigned once
`L.geoJson` has returned; when it throws, nothing is assigned. -/
def initMapLayer (s : AppState) (geoData : List Feature) : Except String AppState := do
  let layers ← initMapLayer.addData s geoData
  pure { s with departmentsLayer := some layers, calls := s.calls ++ ["initMapLayer"] }

/-- The function `renderBankList(banks)`: the container is emptied and one
inactive item per bank is appended in order. -/
def renderBankList (s : AppState) (banks : List Bank) : AppState :=
  { s with
    bankList := banks.map (fun bank => ListNode.bankItem bank false),
    calls := s.calls ++ ["renderBankList"] }

/-- Result of each `await` of `loadData`, in program order: the boundary
fetch, its `json()`, the bank fetch, its `json()`.  An `error` is a rejected
promise. -/
structure Resources where
  geoResponse : Except String Unit
  geoData : Except String (List Feature)
  banksResponse : Except String Unit
  banksData : Except String (List Bank)

/-- The `forEach` of `loadData` that fills `activeDaneCodes`. -/
def extractActiveDaneCodes (set : List String) (banks : List Bank) : List String :=
  banks.foldl (fun set bank =>
    if truthy bank.dane_code then setAdd set (jsString bank.dane_code) else set) set

/-- The body of the `try` block of `loadData`: the state it leaves and the
error it throws, if any.  The four awaits come before the first assignment;
`initMapLayer` comes after `banksData` and `activeDaneCodes` are written. -/
def loadData.tryBlock (s : AppState) (r : Resources) : AppState × Option String :=
  match r.geoResponse with
  | .error error => (s, some error)
  | .ok _geoResponse =>
  match r.geoData with
  | .error error => (s, some error)
  | .ok geoData =>
  match r.banksResponse with
  | .error error => (s, some error)
  | .ok _banksResponse =>
  match r.banksData with
  | .error error => (s, some error)
  | .ok banks =>
    let s1 := { s with banksData := banks }
    let s2 := { s1 with
      activeDaneCodes := extractActiveDaneCodes s1.activeDaneCodes s1.banksData }
    match initMapLayer s2 geoData with
    | .error error => (s2, some error)
    | .ok s3 => (renderBankList s3 s3.banksData, none)

/-- The function `loadData()`: the `catch` clause logs and swallows the
error. -/
def loadData (s : AppState) (r : Resources) : AppState :=
  match loadData.tryBlock s r with
  | (s1, none) => s1
  | (s1, some error) => { s1 with console := s1.console ++ ["Error loading data: " ++ error] }

/-- The style object that `highlightFeature` passes to `setStyle`. -/
def highlightFeature.style : PathOptions :=
  { fillColor := none, weight := some 30, opacity := none,
    color := some "#666", dashArray := some "", fillOpacity := some 8 }

/-- The function `highlightFeature(e)` (mouseover) for the layer at position
`target` of the group. -/
def highlightFeature (s : AppState) (target : Nat) : AppState :=
  match s.departmentsLayer with
  | none => s
  | some layers =>
    let layers1 := layers.modify
      (fun layer => { layer with options := setStyle layer.options highlightFeature.style })
      target
    { s with departmentsLayer := some layers1 }

/-- The function `resetHighlight(e)` (mouseout) for the layer at position
`target` of the group: only `departmentsLayer.resetStyle(e.target)`. -/
def resetHighlight (s : AppState) (target : Nat) : AppState :=
  match s.departmentsLayer with
  | none => s
  | some layers =>
    let layers1 := layers.modify (resetStyle s) target
    { s with departmentsLayer := some layers1 }

/-- The markup that `zoomToFeature` writes when no bank matches. -/
def noBanksMessage : String :=
  "<div style=\"padding:1rem; color: #666;\">No hay bancos registrados en este departamento.</div>"

/-- The local `code` of `zoomToFeature`:
`String(props.DPTO_CCDGO || props.COD_DANE || props.id)` on the properties of
the clicked layer. -/
def zoomToFeature.code (layer : Layer) : String :=
  let props := layer.properties
  jsString (jsOr (jsOr props.DPTO_CCDGO props.COD_DANE) props.id)

/-- The function `zoomToFeature(e)` with `layer = e.target`. -/
def zoomToFeature (s : AppState) (layer : Layer) : AppState :=
  let code := zoomToFeature.code layer
  let filteredBanks := s.banksData.filter (fun bank => decide (jsString bank.dane_code = code))
  let s1 := renderBankList s filteredBanks
  let s2 := { s1 with infoPanel := { s1.infoPanel with hidden := true } }
  if filteredBanks.length = 0 then
    { s2 with bankList := [ListNode.html noBanksMessage] }
  else s2

/-- The local `code` of the `eachLayer` callback of `highlightDepartment`:
`props.DPTO_CCDGO || props.COD_DANE || props.id`, not yet converted. -/
def highlightDepartment.code (layer : Layer) : JsValue :=
  let props := layer.properties
  jsOr (jsOr props.DPTO_CCDGO props.COD_DANE) props.id

/-- The `eachLayer` callback of `highlightDepartment`, run over the layers from
position `i` on; `resetStyle` stands for `departmentsLayer.resetStyle`.
`foundLayer` is the position of the layer held by the variable of that name; a
matching layer is left untouched, every other one is reset. -/
def highlightDepartment.eachLayer (resetStyle : Layer → Layer) (daneCode : JsValue) :
    List Layer → Nat → Option Nat → Option Nat × List Layer
  | [], _, foundLayer => (foundLayer, [])
  | layer :: rest, i, foundLayer =>
    let code := highlightDepartment.code layer
    if jsString code = jsString daneCode then
      let out := highlightDepartment.eachLayer resetStyle daneCode rest (i + 1) (some i)
      (out.1, layer :: out.2)
    else
      let out := highlightDepartment.eachLayer resetStyle daneCode rest (i + 1) foundLayer
      (out.1, resetStyle layer :: out.2)

/-- The body of `highlightDepartment` after the guard on `departmentsLayer`:
the `eachLayer` loop, then `foundLayer.setStyle(styleHighlight)` when a layer
was found. -/
def highlightDepartment.layers (resetStyle : Layer → Layer) (daneCode : JsValue)
    (layers : List Layer) : List Layer :=
  let out := highlightDepartment.eachLayer resetStyle daneCode layers 0 none
  match out.1 with
  | some foundLayer =>
    out.2.modify (fun layer => { layer with options := setStyle layer.options styleHighlight })
      foundLayer
  | none => out.2

/-- The function `highlightDepartment(daneCode)`. -/
def highlightDepartment (s : AppState) (daneCode : JsValue) : AppState :=
  match s.departmentsLayer with
  | none => s
  | some layers =>
    let layers1 := highlightDepartment.layers (resetStyle s) daneCode layers
    { s with departmentsLayer := some layers1 }

/-- The function `selectBank(bank, itemElement)`; `itemElement` is the position
of the clicked item among the children of the list. -/
def selectBank (s : AppState) (bank : Bank) (itemElement : Nat) : AppState :=
  let s1 := { s with bankList := s.bankList.map removeActive }
  let s2 := { s1 with bankList := s1.bankList.modify addActive itemElement }
  let s3 := { s2 with infoPanel :=
    { bankName := bank.bank, bankAddress := bank.address, deptName := bank.name,
      hidden := false } }
  if truthy bank.dane_code then highlightDepartment s3 bank.dane_code else s3

/-- The click listener that `renderBankList` attaches to the item at position
`i`: it calls `selectBank` with the bank and the element of that item. -/
def clickBankItem (s : AppState) (i : Nat) : AppState :=
  match s.bankList.get? i with
  | some (.bankItem bank _) => selectBank s bank i
  | _ => s

/-- The handler `button.onclick` installed by `HomeControl.onAdd`. -/
def HomeControl.onclick (s : AppState) : AppState :=
  let s1 := match s.departmentsLayer with
    | some layers => { s with departmentsLayer := some (layers.map (resetStyle s)) }
    | none => s
  let s2 := { s1 with infoPanel := { s1.infoPanel with hidden := true } }
  let s3 := { s2 with bankList := s2.bankList.map removeActive }
  renderBankList s3 s3.banksData

/-! ## The functions of the earlier script `src/app.js`

It has no `activeDaneCodes`, no `styleNoBank` and no home control; the layer
group is styled with the constant `styleDefault`, and `zoomToFeature` only
moves the camera.  Its `L.geoJson` never reads `feature.properties`, so a
layer may hold a feature without properties object, on which the callback of
`highlightDepartment` throws. -/

namespace Legacy

/-- One department polygon of the layer group of `src/app.js`. -/
structure Layer where
  feature : Feature
  defaultOptions : PathOptions
  options : PathOptions
  deriving DecidableEq, Repr

/-- Module level variables of `src/app.js` together with the DOM it writes. -/
structure AppState where
  banksData : List Bank
  departmentsLayer : Option (List Layer)
  bankList : List ListNode
  infoPanel : InfoPanel
  console : List String
  calls : List String
  deriving DecidableEq, Repr

/-- The call `departmentsLayer.resetStyle(layer)` for a group whose style is
the object `styleDefault`. -/
def resetStyle (layer : Layer) : Layer :=
  { layer with options := setStyle layer.defaultOptions styleDefault }

/-- The function `initMapLayer(geoData)` of `src/app.js`. -/
def initMapLayer (s : AppState) (geoData : List Feature) : AppState :=
  { s with
    departmentsLayer := some (geoData.map (fun feature =>
      resetStyle { feature := feature, defaultOptions := pathDefaults,
                   options := pathDefaults })),
    calls := s.calls ++ ["initMapLayer"] }

/-- The function `renderBankList(banks)` of `src/app.js`. -/
def renderBankList (s : AppState) (banks : List Bank) : AppState :=
  { s with
    bankList := banks.map (fun bank => ListNode.bankItem bank false),
    calls := s.calls ++ ["renderBankList"] }

/-- The body of the `try` block of `loadData` of `src/app.js`.  The four
awaits come before the first assignment and nothing after them throws, so a
rejection reaches the `catch` clause with the state of entry. -/
def loadData.tryBlock (s : AppState) (r : Resources) : Except String AppState := do
  let _geoResponse ← r.geoResponse
  let geoData ← r.geoData
  let _banksResponse ← r.banksResponse
  let banks ← r.banksData
  let s1 := { s with banksData := banks }
  let s2 := initMapLayer s1 geoData
  pure (renderBankList s2 s2.banksData)

/-- The function `loadData()` of `src/app.js`. -/
def loadData (s : AppState) (r : Resources) : AppState :=
  match loadData.tryBlock s r with
  | .ok s1 => s1
  | .error error => { s with console := s.console ++ ["Error loading data: " ++ error] }

/-- The `eachLayer` callback of `highlightDepartment` of `src/app.js`, run over
the layers from position `i` on.  The result is the error thrown (if any), the
variable `foundLayer` and the layers.  Reading `props.DPTO_CCDGO` on a feature
without properties object throws: the loop stops there and the remaining
layers are left as they are. -/
def highlightDepartment.eachLayer (daneCode : JsValue) :
    List Layer → Nat → Option Nat → (Option String × Option Nat) × List Layer
  | [], _, foundLayer => ((none, foundLayer), [])
  | layer :: rest, i, foundLayer =>
    match layer.feature.props with
    | .error error => ((some error, foundLayer), layer :: rest)
    | .ok props =>
      let code := jsOr (jsOr props.DPTO_CCDGO props.COD_DANE) props.id
      if jsString code = jsString daneCode then
        let out := highlightDepartment.eachLayer daneCode rest (i + 1) (some i)
        (out.1, layer :: out.2)
      else
        let out := highlightDepartment.eachLayer daneCode rest (i + 1) foundLayer
        (out.1, resetStyle layer :: out.2)

/-- The function `highlightDepartment(daneCode)` of `src/app.js`: the state it
leaves and the error it throws, if any. -/
def highlightDepartment (s : AppState) (daneCode : JsValue) : AppState × Option String :=
  match s.departmentsLayer with
  | none => (s, none)
  | some layers =>
    let out := highlightDepartment.eachLayer daneCode layers 0 none
    match out.1 with
    | (some error, _) => ({ s with departmentsLayer := some out.2 }, some error)
    | (none, some foundLayer) =>
      let layers1 := out.2.modify
        (fun layer => { layer with options := setStyle layer.options styleHighlight })
        foundLayer
      ({ s with departmentsLayer := some layers1 }, none)
    | (none, none) => ({ s with departmentsLayer := some out.2 }, none)

/-- The function `selectBank(bank, itemElement)` of `src/app.js`: the state it
leaves and the error it throws, if any. -/
def selectBank (s : AppState) (bank : Bank) (itemElement : Nat) : AppState × Option String :=
  let s1 := { s with bankList := s.bankList.map removeActive }
  let s2 := { s1 with bankList := s1.bankList.modify addActive itemElement }
  let s3 := { s2 with infoPanel :=
    { bankName := bank.bank, bankAddress := bank.address, deptName := bank.name,
      hidden := false } }
  if truthy bank.dane_code then highlightDepartment s3 bank.dane_code else (s3, none)

end Legacy

/-! ## Definitions used by the statements: observers, predicates and concrete inputs -/

/-- Resources of a load in which both fetches and both parses succeed. -/
def Resources.loaded (geoData : List Feature) (banks : List Bank) : Resources :=
  { geoResponse := .ok (), geoData := .ok geoData,
    banksResponse := .ok (), banksData := .ok banks }

/-- The banks shown by the list: the bank of every `div.bank-item` child, in
document order. -/
def renderedBanks : List ListNode → List Bank
  | [] => []
  | .bankItem bank _ :: rest => bank :: renderedBanks rest
  | .html _ :: rest => renderedBanks rest

/-- A feature whose code is unresolvable: it has no properties object, or none
of `DPTO_CCDGO`, `COD_DANE`, `id` is present and non-empty. -/
def unresolvable (feature : Feature) : Bool :=
  match feature.properties with
  | none => true
  | some props =>
    !truthy props.DPTO_CCDGO && !truthy props.COD_DANE && !truthy props.id

/-- The string forms of the five falsy values `undefined`, `null`, `false`, `0`
and the empty string. -/
def emptyValueTexts : List String :=
  ["undefined", "null", "false", "0", ""]

/-- A bank record with the given department code. -/
def bankWithCode (bank : String) (dane_code : JsValue) : Bank :=
  { bank := bank, name := "Antioquia", address := "Calle 1", dane_code := dane_code }

/-- A properties object with the three candidate code properties. -/
def propsWith (DPTO_CCDGO COD_DANE id : JsValue) : Properties :=
  { DPTO_CCDGO := DPTO_CCDGO, COD_DANE := COD_DANE, id := id }

/-- A feature whose properties object holds the three candidate code
properties. -/
def featureWith (DPTO_CCDGO COD_DANE id : JsValue) : Feature :=
  { properties := some (propsWith DPTO_CCDGO COD_DANE id) }

/-- A feature whose properties object is `{}`: none of the three candidate code
properties is present. -/
def featureNoCode : Feature :=
  featureWith .undefined .undefined .undefined

/-- A feature whose member `properties` is `null`. -/
def featureNullProperties : Feature :=
  { properties := none }

/-- A freshly created polygon for a feature with the given properties. -/
def layerWith (DPTO_CCDGO COD_DANE id : JsValue) : Layer :=
  { properties := propsWith DPTO_CCDGO COD_DANE id, defaultOptions := pathDefaults,
    options := pathDefaults }

/-- A freshly created polygon for `featureNoCode`. -/
def layerNoCode : Layer :=
  layerWith .undefined .undefined .undefined

/-- An info panel as the page delivers it: empty and hidden. -/
def emptyPanel : InfoPanel :=
  { bankName := "", bankAddress := "", deptName := "", hidden := true }

/-- A bank list whose only record has no `dane_code`. -/
def uncodedBanks : List Bank :=
  [bankWithCode "Banco A" .undefined]

/-- The loaded page for `uncodedBanks` and a map whose only feature carries no
code property. -/
def uncodedState : AppState :=
  loadData (pageState [] emptyPanel) (Resources.loaded [featureNoCode] uncodedBanks)

/-- A bank list whose only record has the numeric code `0`. -/
def zeroBanks : List Bank :=
  [bankWithCode "Banco A" (.number ⟨0, by decide⟩)]

/-- The loaded page for `zeroBanks` and a map whose only feature has the
official code `"0"`. -/
def zeroState : AppState :=
  loadData (pageState [] emptyPanel)
    (Resources.loaded [featureWith (.string "0") .undefined .undefined] zeroBanks)

/-- A bank list whose only record has the text `undefined` as its code. -/
def undefinedTextBanks : List Bank :=
  [bankWithCode "Banco A" (.string "undefined")]

/-- The loaded page for `undefinedTextBanks`. -/
def undefinedTextState : AppState :=
  loadData (pageState [] emptyPanel) (Resources.loaded [featureNoCode] undefinedTextBanks)

/-- The scenario of the specification: two banks in department `"05"`, none in
department `"08"`. -/
def scenarioBanks : List Bank :=
  [bankWithCode "Banco A" (.string "05"), bankWithCode "Banco B" (.string "05")]

/-- The two departments of the scenario. -/
def scenarioGeo : List Feature :=
  [featureWith (.string "05") .undefined .undefined,
   featureWith (.string "08") .undefined .undefined]

/-- The loaded page of the scenario. -/
def scenarioState : AppState :=
  loadData (pageState [] emptyPanel) (Resources.loaded scenarioGeo scenarioBanks)

/-- The first non-empty value of a list of candidates, in the words of the
specification: the candidates are tried in order and the first one that is not
empty (truthy) is taken. -/
def firstNonEmpty : List JsValue → Option JsValue
  | [] => none
  | v :: rest => if truthy v then some v else firstNonEmpty rest

/-- The comparison `String(code) === String(daneCode)` of `highlightDepartment`
for one layer. -/
def matchesCode (daneCode : JsValue) (layer : Layer) : Bool :=
  decide (jsString (highlightDepartment.code layer) = jsString daneCode)

/-- A layer carries the highlight when every key of `styleHighlight` has the
value of `styleHighlight` in its options. -/
def carriesHighlight (layer : Layer) : Bool :=
  decide (layer.options.weight = styleHighlight.weight ∧
    layer.options.color = styleHighlight.color ∧
    layer.options.dashArray = styleHighlight.dashArray ∧
    layer.options.fillOpacity = styleHighlight.fillOpacity)

/-- The call `layer.setStyle(styleHighlight)`. -/
def highlighted (layer : Layer) : Layer :=
  { layer with options := setStyle layer.options styleHighlight }

/-- A bank list with one bank in department `"05"`, one without code and one
with a code that no department has. -/
def mixedBanks : List Bank :=
  [bankWithCode "Banco A" (.string "05"), bankWithCode "Banco C" .undefined,
   bankWithCode "Banco D" (.string "99")]

/-- The loaded page for `mixedBanks` and the two departments `"05"`, `"08"`. -/
def mixedState : AppState :=
  loadData (pageState [] emptyPanel) (Resources.loaded scenarioGeo mixedBanks)

/-- The string codes of the layers that carry the highlight. -/
def highlightedCodes (s : AppState) : List String :=
  match s.departmentsLayer with
  | none => []
  | some layers =>
    (layers.filter carriesHighlight).map (fun layer => jsString (highlightDepartment.code layer))

/-- A layer of `src/app.js` whose feature has a properties object, given as the
layer of `src/js/app.js` with the same properties and options. -/
def Legacy.Layer.ofLayer (layer : MapaBancos.Layer) : Legacy.Layer :=
  { feature := layer.feature, defaultOptions := layer.defaultOptions,
    options := layer.options }

/-- The call `departmentsLayer.resetStyle(layer)` of `src/app.js` on a layer
whose feature has a properties object. -/
def Legacy.resetStyleOfLayer (layer : MapaBancos.Layer) : MapaBancos.Layer :=
  { layer with options := setStyle layer.defaultOptions styleDefault }

/-- The state of `src/app.js` right after the script has been evaluated. -/
def Legacy.pageState (bankList : List ListNode) (infoPanel : InfoPanel) : Legacy.AppState :=
  { banksData := [], departmentsLayer := none, bankList := bankList,
    infoPanel := infoPanel, console := [], calls := [] }

/-- The loaded page of the scenario under `src/app.js`. -/
def Legacy.scenarioState : Legacy.AppState :=
  Legacy.loadData (Legacy.pageState [] emptyPanel) (Resources.loaded scenarioGeo scenarioBanks)

/-- The two department polygons of the scenario as `src/js/app.js` paints
them after the load. -/
def scenarioLayers : List Layer :=
  [{ properties := propsWith (.string "05") .undefined .undefined,
     defaultOptions := pathDefaults, options := styleDefault },
   { properties := propsWith (.string "08") .undefined .undefined,
     defaultOptions := pathDefaults, options := styleNoBank }]

/-- The two department polygons of the scenario as `src/app.js` paints them
after the load. -/
def Legacy.scenarioLayers : List MapaBancos.Layer :=
  [{ properties := propsWith (.string "05") .undefined .undefined,
     defaultOptions := pathDefaults, options := styleDefault },
   { properties := propsWith (.string "08") .undefined .undefined,
     defaultOptions := pathDefaults, options := styleDefault }]

/-- Whether a child of the list has the class `active`. -/
def isActive : ListNode → Bool
  | .bankItem _ active => active
  | .html _ => false

/-- The Idle state of the selection controller as the page shows it: the info
panel is hidden, no list entry is active, the list holds one inactive item per
record of `banksData` in the original order, and every department polygon has
the style that `getFeatureStyle` derives from the data. -/
def Idle (s : AppState) : Prop :=
  s.infoPanel.hidden = true ∧
  (∀ node ∈ s.bankList, isActive node = false) ∧
  s.bankList = s.banksData.map (fun bank => ListNode.bankItem bank false) ∧
  renderedBanks s.bankList = s.banksData ∧
  (∀ layer ∈ s.departmentsLayer.getD [],
    getFeatureStyle s layer.feature = .ok layer.options)

/-- Whether an awaited promise was rejected. -/
def rejected {α : Type} : Except String α → Bool
  | .error _ => true
  | .ok _ => false

/-- Some `await` of `loadData` rejects: the fetch or the parse of the boundary
geometry or of the bank list fails. -/
def Resources.failed (r : Resources) : Bool :=
  rejected r.geoResponse || rejected r.geoData ||
  rejected r.banksResponse || rejected r.banksData

/-- Resources in which the fetch of the bank list is rejected after the
boundary geometry was delivered. -/
def banksFetchFails : Resources :=
  { geoResponse := .ok (), geoData := .ok scenarioGeo,
    banksResponse := .error "TypeError: Failed to fetch", banksData := .ok scenarioBanks }

/-! ## Lemmas on the set of active codes -/

theorem mem_setAdd (set : List String) (x y : String) :
    y ∈ setAdd set x ↔ y ∈ set ∨ y = x := by
  unfold setAdd
  split
  · rename_i h
    constructor
    · intro hy; exact Or.inl hy
    · rintro (hy | rfl)
      · exact hy
      · simpa using h
  · simp

theorem mem_extractActiveDaneCodes (banks : List Bank) (set : List String) (x : String) :
    x ∈ extractActiveDaneCodes set banks ↔
      x ∈ set ∨ ∃ bank ∈ banks, truthy bank.dane_code = true ∧ jsString bank.dane_code = x := by
  induction banks generalizing set with
  | nil => simp [extractActiveDaneCodes]
  | cons b rest ih =>
    have step : extractActiveDaneCodes set (b :: rest) =
        extractActiveDaneCodes
          (if truthy b.dane_code then setAdd set (jsString b.dane_code) else set) rest := by
      simp [extractActiveDaneCodes]
    rw [step, ih]
    by_cases hb : truthy b.dane_code = true
    · simp only [hb, if_true, mem_setAdd, List.mem_cons, exists_eq_or_imp, true_and]
      constructor
      · rintro ((h | h) | h)
        · exact Or.inl h
        · exact Or.inr (Or.inl h.symm)
        · exact Or.inr (Or.inr h)
      · rintro (h | h | h)
        · exact Or.inl (Or.inl h)
        · exact Or.inl (Or.inr h.symm)
        · exact Or.inr h
    · simp [hb]

/-- After a load whose fetches and parses succeed, `banksData` and
`activeDaneCodes` are written, whether or not `initMapLayer` then throws. -/
theorem loadData_loaded (bankList : List ListNode) (infoPanel : InfoPanel)
    (geoData : List Feature) (banks : List Bank) :
    (loadData (pageState bankList infoPanel) (Resources.loaded geoData banks)).activeDaneCodes
        = extractActiveDaneCodes [] banks ∧
    (loadData (pageState bankList infoPanel) (Resources.loaded geoData banks)).banksData
        = banks := by
  simp only [loadData, loadData.tryBlock, Resources.loaded, initMapLayer, pageState]
  cases initMapLayer.addData _ geoData <;> exact ⟨rfl, rfl⟩

theorem getFeatureStyle_of_props (s : AppState) (props : Properties) :
    getFeatureStyle s { properties := some props } = .ok (getFeatureStyle.withProps s props) :=
  rfl

theorem getFeatureStyle_layer_feature (s : AppState) (layer : Layer) :
    getFeatureStyle s layer.feature = .ok (getFeatureStyle.withProps s layer.properties) :=
  rfl

theorem withProps_eq_styleDefault_iff (s : AppState) (props : Properties) :
    getFeatureStyle.withProps s props = styleDefault ↔
      getFeatureStyle.code props ∈ s.activeDaneCodes := by
  unfold getFeatureStyle.withProps setHas
  by_cases h : getFeatureStyle.code props ∈ s.activeDaneCodes
  · simp [h]
  · simp [h]; decide

theorem withProps_eq_styleNoBank_iff (s : AppState) (props : Properties) :
    getFeatureStyle.withProps s props = styleNoBank ↔
      getFeatureStyle.code props ∉ s.activeDaneCodes := by
  unfold getFeatureStyle.withProps setHas
  by_cases h : getFeatureStyle.code props ∈ s.activeDaneCodes
  · simp [h]; decide
  · simp [h]

theorem withProps_cases (s : AppState) (props : Properties) :
    getFeatureStyle.withProps s props = styleDefault ∨
      getFeatureStyle.withProps s props = styleNoBank := by
  by_cases h : setHas s.activeDaneCodes (getFeatureStyle.code props) = true
  · left; simp [getFeatureStyle.withProps, h]
  · right; simp [getFeatureStyle.withProps, h]

/-- The string form of a falsy value is one of the five texts of
`emptyValueTexts`. -/
theorem jsString_mem_emptyValueTexts (v : JsValue) (h : truthy v = false) :
    jsString v ∈ emptyValueTexts := by
  cases v with
  | undefined => decide
  | null => decide
  | bool b =>
    cases b
    · decide
    · simp [truthy] at h
  | number n =>
    have hz : n.val = 0 := by simpa [truthy] using h
    show toString n.val ∈ emptyValueTexts
    rw [hz]
    decide
  | string s =>
    have hs : s = "" := by simpa [truthy] using h
    simp [jsString, hs, emptyValueTexts]

/-! ## Claims on the style resolver and on the click on a department -/

/-- C1 (as stated, refuted): a bank whose `dane_code` is the number `0` has the
string form `"0"`, the resolved code of the feature coded `"0"`, and yet
`getFeatureStyle` answers `styleNoBank`; likewise a bank without `dane_code`
and a feature without code property both have the string form `undefined`. -/
theorem getFeatureStyle_string_form_counterexample :
    ¬ (getFeatureStyle zeroState (featureWith (.string "0") .undefined .undefined)
          = .ok styleDefault ↔
        ∃ bank ∈ zeroBanks,
          jsString bank.dane_code =
            getFeatureStyle.code (propsWith (.string "0") .undefined .undefined)) ∧
    ¬ (getFeatureStyle uncodedState featureNoCode = .ok styleDefault ↔
        ∃ bank ∈ uncodedBanks,
          jsString bank.dane_code =
            getFeatureStyle.code (propsWith .undefined .undefined .undefined)) := by
  decide

/-- C1 (amended): after a successful load, `getFeatureStyle` returns
`styleDefault` exactly when some bank record with a truthy `dane_code` has a
string form equal to the resolved code of the feature, and `styleNoBank` in
every other case. -/
theorem getFeatureStyle_covered_iff (bankList : List ListNode) (infoPanel : InfoPanel)
    (geoData : List Feature) (banks : List Bank) (props : Properties) :
    (getFeatureStyle (loadData (pageState bankList infoPanel) (Resources.loaded geoData banks))
        { properties := some props } = .ok styleDefault ↔
      ∃ bank ∈ banks, truthy bank.dane_code = true ∧
        jsString bank.dane_code = getFeatureStyle.code props) ∧
    (getFeatureStyle (loadData (pageState bankList infoPanel) (Resources.loaded geoData banks))
        { properties := some props } = .ok styleNoBank ↔
      ¬ ∃ bank ∈ banks, truthy bank.dane_code = true ∧
        jsString bank.dane_code = getFeatureStyle.code props) := by
  rw [getFeatureStyle_of_props]
  simp only [Except.ok.injEq]
  rw [withProps_eq_styleDefault_iff, withProps_eq_styleNoBank_iff,
    (loadData_loaded bankList infoPanel geoData banks).1, mem_extractActiveDaneCodes]
  simp

/-- C8 (as stated, refuted): on a feature whose `properties` is `null`, which
has no code property at all, `getFeatureStyle` throws a `TypeError`; and on a
feature with an empty properties object, which resolves to the text
`undefined`, a bank whose code is that text makes it answer `styleDefault`. -/
theorem getFeatureStyle_unresolvable_counterexample :
    (unresolvable featureNullProperties = true ∧
      getFeatureStyle scenarioState featureNullProperties = .error propertiesTypeError) ∧
    (unresolvable featureNoCode = true ∧
      getFeatureStyle undefinedTextState featureNoCode = .ok styleDefault ∧
      getFeatureStyle undefinedTextState featureNoCode ≠ .ok styleNoBank) := by
  decide

/-- C8 (amended): on a feature that has a properties object in which
`DPTO_CCDGO`, `COD_DANE` and `id` are all falsy, `getFeatureStyle` raises no
error; it returns `styleNoBank` exactly when no bank with a truthy `dane_code`
has the string form of the value of `id`, and `styleDefault` otherwise.  That
string form is one of `undefined`, `null`, `false`, `0` and the empty text, so
the answer is `styleNoBank` for every bank list without a truthy code of one
of these texts. -/
theorem getFeatureStyle_unresolvable (bankList : List ListNode) (infoPanel : InfoPanel)
    (geoData : List Feature) (banks : List Bank) (feature : Feature) (props : Properties)
    (hProps : feature.properties = some props)
    (hDpto : truthy props.DPTO_CCDGO = false)
    (hCod : truthy props.COD_DANE = false)
    (hId : truthy props.id = false) :
    (getFeatureStyle (loadData (pageState bankList infoPanel) (Resources.loaded geoData banks))
        feature = .ok styleNoBank ∨
      getFeatureStyle (loadData (pageState bankList infoPanel) (Resources.loaded geoData banks))
        feature = .ok styleDefault) ∧
    (getFeatureStyle (loadData (pageState bankList infoPanel) (Resources.loaded geoData banks))
        feature = .ok styleNoBank ↔
      ¬ ∃ bank ∈ banks, truthy bank.dane_code = true ∧
        jsString bank.dane_code = jsString props.id) ∧
    jsString props.id ∈ emptyValueTexts ∧
    ((∀ bank ∈ banks, truthy bank.dane_code = true →
        jsString bank.dane_code ∉ emptyValueTexts) →
      getFeatureStyle (loadData (pageState bankList infoPanel) (Resources.loaded geoData banks))
        feature = .ok styleNoBank) := by
  have hfeature : feature = { properties := some props } := by
    cases feature
    simp only at hProps
    rw [hProps]
  have hcode : getFeatureStyle.code props = jsString props.id := by
    simp [getFeatureStyle.code, jsOr, hDpto, hCod]
  have hiff : getFeatureStyle
      (loadData (pageState bankList infoPanel) (Resources.loaded geoData banks))
        feature = .ok styleNoBank ↔
      ¬ ∃ bank ∈ banks, truthy bank.dane_code = true ∧
        jsString bank.dane_code = jsString props.id := by
    rw [hfeature, ← hcode, getFeatureStyle_of_props]
    simp only [Except.ok.injEq]
    rw [withProps_eq_styleNoBank_iff,
      (loadData_loaded bankList infoPanel geoData banks).1, mem_extractActiveDaneCodes]
    simp
  have htext := jsString_mem_emptyValueTexts props.id hId
  refine ⟨?_, hiff, htext, ?_⟩
  · rw [hfeature, getFeatureStyle_of_props]
    rcases withProps_cases
      (loadData (pageState bankList infoPanel) (Resources.loaded geoData banks)) props with h | h
    · right; rw [h]
    · left; rw [h]
  · intro hBanks
    rw [hiff]
    rintro ⟨bank, hmem, ht, heq⟩
    exact hBanks bank hmem ht (heq ▸ htext)

/-- Witness of `getFeatureStyle_unresolvable`: banks coded `"05"` and `"99"`, a
bank without code, and a feature whose properties object is empty. -/
theorem getFeatureStyle_unresolvable_witness :
    (∀ bank ∈ mixedBanks, truthy bank.dane_code = true →
      jsString bank.dane_code ∉ emptyValueTexts) ∧
    getFeatureStyle
      (loadData (pageState [] emptyPanel) (Resources.loaded [featureNoCode] mixedBanks))
      featureNoCode = .ok styleNoBank :=
  ⟨by decide,
   (getFeatureStyle_unresolvable [] emptyPanel [featureNoCode] mixedBanks featureNoCode
      (propsWith .undefined .undefined .undefined) rfl (by decide) (by decide)
      (by decide)).2.2.2 (by decide)⟩

/-- C3 (evaluation at the failing input): clicking a feature whose properties
object has no code property, with a bank list whose record has no `dane_code`,
lists that bank: the filtered list is not empty and no placeholder is shown. -/
theorem zoomToFeature_uncoded_lists_uncoded_bank :
    unresolvable layerNoCode.feature = true ∧
    truthy layerNoCode.properties.DPTO_CCDGO = false ∧
    truthy layerNoCode.properties.COD_DANE = false ∧
    truthy layerNoCode.properties.id = false ∧
    (zoomToFeature uncodedState layerNoCode).bankList =
      [ListNode.bankItem (bankWithCode "Banco A" .undefined) false] ∧
    renderedBanks (zoomToFeature uncodedState layerNoCode).bankList ≠ [] := by
  decide

/-- C10 (evaluation at the failing inputs): a department painted `styleNoBank`
whose click nevertheless lists a bank, once for a bank without `dane_code` and
a feature without code, once for a bank coded with the number `0` and a
feature coded `"0"`. -/
theorem style_and_click_disagree :
    (getFeatureStyle uncodedState layerNoCode.feature = .ok styleNoBank ∧
      renderedBanks (zoomToFeature uncodedState layerNoCode).bankList = uncodedBanks) ∧
    (getFeatureStyle zeroState (layerWith (.string "0") .undefined .undefined).feature
        = .ok styleNoBank ∧
      renderedBanks (zoomToFeature zeroState
          (layerWith (.string "0") .undefined .undefined)).bankList = zeroBanks) := by
  decide

theorem renderedBanks_map_bankItem (banks : List Bank) (active : Bool) :
    renderedBanks (banks.map (fun bank => ListNode.bankItem bank active)) = banks := by
  induction banks with
  | nil => rfl
  | cons b rest ih => simp [renderedBanks, ih]

theorem zoomToFeature_bankList (s : AppState) (layer : Layer) :
    (zoomToFeature s layer).bankList =
      if s.banksData.filter (fun bank => decide (jsString bank.dane_code = zoomToFeature.code layer))
          = [] then
        [ListNode.html noBanksMessage]
      else
        (s.banksData.filter
          (fun bank => decide (jsString bank.dane_code = zoomToFeature.code layer))).map
          (fun bank => ListNode.bankItem bank false) := by
  unfold zoomToFeature
  simp only [List.length_eq_zero]
  split <;> simp_all [renderBankList]

theorem renderedBanks_zoomToFeature (s : AppState) (layer : Layer) :
    renderedBanks (zoomToFeature s layer).bankList =
      s.banksData.filter
        (fun bank => decide (jsString bank.dane_code = zoomToFeature.code layer)) := by
  rw [zoomToFeature_bankList]
  split
  · rename_i h
    rw [h]; rfl
  · exact renderedBanks_map_bankItem _ _

/-- The two paths agree whenever every bank of the list has a truthy
`dane_code`: the department is painted `styleDefault` exactly when its click
lists at least one bank. -/
theorem style_and_click_agree_of_truthy (bankList : List ListNode) (infoPanel : InfoPanel)
    (geoData : List Feature) (banks : List Bank) (layer : Layer)
    (h : ∀ bank ∈ banks, truthy bank.dane_code = true) :
    getFeatureStyle (loadData (pageState bankList infoPanel) (Resources.loaded geoData banks))
        layer.feature = .ok styleDefault ↔
      renderedBanks (zoomToFeature
        (loadData (pageState bankList infoPanel) (Resources.loaded geoData banks))
        layer).bankList ≠ [] := by
  rw [renderedBanks_zoomToFeature, getFeatureStyle_layer_feature]
  simp only [Except.ok.injEq]
  rw [withProps_eq_styleDefault_iff,
    (loadData_loaded bankList infoPanel geoData banks).1,
    (loadData_loaded bankList infoPanel geoData banks).2, mem_extractActiveDaneCodes]
  have hcode : zoomToFeature.code layer = getFeatureStyle.code layer.properties := rfl
  rw [hcode, Ne, List.filter_eq_nil_iff]
  constructor
  · rintro (hn | ⟨bank, hmem, _, heq⟩)
    · simp at hn
    · intro hall
      exact hall bank hmem (by simpa using heq)
  · intro hex
    right
    by_contra hno
    apply hex
    intro bank hmem hdec
    exact hno ⟨bank, hmem, h bank hmem, by simpa using hdec⟩

/-- C2: clicking a department renders exactly the bank records whose string
form of `dane_code` equals the resolved code of the feature, in their original
order; the placeholder replaces the list exactly when no record matches.  In
the scenario of two records coded `"05"` and none coded `"08"`, clicking `"05"`
gives a list of two items and clicking `"08"` gives the placeholder. -/
theorem zoomToFeature_renders_matching_banks (s : AppState) (layer : Layer) :
    renderedBanks (zoomToFeature s layer).bankList =
      s.banksData.filter
        (fun bank => decide (jsString bank.dane_code = zoomToFeature.code layer)) ∧
    (renderedBanks (zoomToFeature s layer).bankList).Sublist s.banksData ∧
    (∀ bank, bank ∈ renderedBanks (zoomToFeature s layer).bankList ↔
      bank ∈ s.banksData ∧ jsString bank.dane_code = zoomToFeature.code layer) ∧
    ((zoomToFeature s layer).bankList = [ListNode.html noBanksMessage] ↔
      ∀ bank ∈ s.banksData, jsString bank.dane_code ≠ zoomToFeature.code layer) ∧
    ((zoomToFeature s layer).bankList ≠ [ListNode.html noBanksMessage] →
      (zoomToFeature s layer).bankList =
        (s.banksData.filter
          (fun bank => decide (jsString bank.dane_code = zoomToFeature.code layer))).map
          (fun bank => ListNode.bankItem bank false)) ∧
    (zoomToFeature scenarioState (layerWith (.string "05") .undefined .undefined)).bankList =
      [ListNode.bankItem (bankWithCode "Banco A" (.string "05")) false,
       ListNode.bankItem (bankWithCode "Banco B" (.string "05")) false] ∧
    (zoomToFeature scenarioState (layerWith (.string "08") .undefined .undefined)).bankList =
      [ListNode.html noBanksMessage] := by
  have hfilter := renderedBanks_zoomToFeature s layer
  refine ⟨hfilter, ?_, ?_, ?_, ?_, by decide, by decide⟩
  · rw [hfilter]; exact List.filter_sublist _
  · intro bank
    rw [hfilter, List.mem_filter]
    simp
  · rw [zoomToFeature_bankList]
    split
    · rename_i h
      simp only [true_iff]
      intro bank hmem heq
      have : bank ∈ s.banksData.filter
          (fun bank => decide (jsString bank.dane_code = zoomToFeature.code layer)) := by
        rw [List.mem_filter]; exact ⟨hmem, by simpa using heq⟩
      rw [h] at this
      simp at this
    · rename_i h
      constructor
      · intro hEq
        exfalso
        cases hf : s.banksData.filter
            (fun bank => decide (jsString bank.dane_code = zoomToFeature.code layer)) with
        | nil => exact h hf
        | cons b rest =>
          rw [hf] at hEq
          simp at hEq
      · intro hall
        exfalso
        apply h
        rw [List.filter_eq_nil_iff]
        intro bank hmem
        simpa using hall bank hmem
  · intro hne
    rw [zoomToFeature_bankList] at hne ⊢
    split
    · rename_i h
      rw [if_pos h] at hne
      exact absurd rfl hne
    · rfl

/-- C4: the code that `getFeatureStyle`, `zoomToFeature` and
`highlightDepartment` use for a department is the string form of the first
non-empty (truthy) value among `DPTO_CCDGO`, `COD_DANE` and `id`, in that
order; a non-empty `DPTO_CCDGO` is the one used whatever the other two hold;
when all three are empty the value of `id` is converted.  For
`highlightDepartment` the value itself is that candidate, and the comparison
converts it with `String`. -/
theorem code_is_first_nonempty_candidate (layer : Layer) :
    (∀ v, firstNonEmpty [layer.properties.DPTO_CCDGO,
          layer.properties.COD_DANE, layer.properties.id] = some v →
      getFeatureStyle.code layer.properties = jsString v ∧
      zoomToFeature.code layer = jsString v ∧
      highlightDepartment.code layer = v) ∧
    (truthy layer.properties.DPTO_CCDGO = true →
      getFeatureStyle.code layer.properties = jsString layer.properties.DPTO_CCDGO ∧
      zoomToFeature.code layer = jsString layer.properties.DPTO_CCDGO ∧
      highlightDepartment.code layer = layer.properties.DPTO_CCDGO) ∧
    (firstNonEmpty [layer.properties.DPTO_CCDGO,
          layer.properties.COD_DANE, layer.properties.id] = none →
      getFeatureStyle.code layer.properties = jsString layer.properties.id ∧
      zoomToFeature.code layer = jsString layer.properties.id ∧
      highlightDepartment.code layer = layer.properties.id) := by
  unfold getFeatureStyle.code zoomToFeature.code highlightDepartment.code firstNonEmpty
    firstNonEmpty firstNonEmpty firstNonEmpty jsOr
  by_cases h1 : truthy layer.properties.DPTO_CCDGO = true
  · simp [h1]
  · by_cases h2 : truthy layer.properties.COD_DANE = true
    · simp [h1, h2]
    · by_cases h3 : truthy layer.properties.id = true
      · simp [h1, h2, h3]
      · simp [h1, h2, h3]

/-- Witness of `code_is_first_nonempty_candidate`: `DPTO_CCDGO = "05"` wins over
`COD_DANE = "08"` and `id = 9`, and `COD_DANE` is used when `DPTO_CCDGO` is
absent. -/
theorem code_is_first_nonempty_candidate_witness :
    (getFeatureStyle.code
        (layerWith (.string "05") (.string "08") (.number ⟨9, by decide⟩)).properties = "05" ∧
      zoomToFeature.code (layerWith (.string "05") (.string "08") (.number ⟨9, by decide⟩))
        = "05" ∧
      highlightDepartment.code (layerWith (.string "05") (.string "08") (.number ⟨9, by decide⟩))
        = .string "05") ∧
    (getFeatureStyle.code
        (layerWith .undefined (.string "08") (.number ⟨9, by decide⟩)).properties = "08" ∧
      zoomToFeature.code (layerWith .undefined (.string "08") (.number ⟨9, by decide⟩))
        = "08" ∧
      highlightDepartment.code (layerWith .undefined (.string "08") (.number ⟨9, by decide⟩))
        = .string "08") :=
  ⟨(code_is_first_nonempty_candidate
      (layerWith (.string "05") (.string "08") (.number ⟨9, by decide⟩))).2.1 (by decide),
   (code_is_first_nonempty_candidate
      (layerWith .undefined (.string "08") (.number ⟨9, by decide⟩))).1 (.string "08")
      (by decide)⟩

/-! ## Lemmas on `highlightDepartment` -/

theorem eachLayer_no_match (reset : Layer → Layer) (daneCode : JsValue) (layers : List Layer)
    (i : Nat) (found : Option Nat)
    (h : ∀ layer ∈ layers, matchesCode daneCode layer = false) :
    highlightDepartment.eachLayer reset daneCode layers i found = (found, layers.map reset) := by
  induction layers generalizing i found with
  | nil => rfl
  | cons l rest ih =>
    have hl : ¬ jsString (highlightDepartment.code l) = jsString daneCode := by
      simpa [matchesCode] using h l (List.mem_cons_self _ _)
    have hrest := ih (i + 1) found (fun layer hm => h layer (List.mem_cons_of_mem _ hm))
    simp [highlightDepartment.eachLayer, hl, hrest]

theorem eachLayer_unique_match (reset : Layer → Layer) (daneCode : JsValue)
    (layers : List Layer) (i : Nat) (found : Option Nat)
    (h : (layers.filter (matchesCode daneCode)).length = 1) :
    ∃ k, (highlightDepartment.eachLayer reset daneCode layers i found).1 = some (i + k) ∧
      (highlightDepartment.eachLayer reset daneCode layers i found).2.modify highlighted k =
        layers.map (fun layer =>
          if matchesCode daneCode layer then highlighted layer else reset layer) := by
  induction layers generalizing i found with
  | nil => simp at h
  | cons l rest ih =>
    by_cases hl : matchesCode daneCode l = true
    · have hl2 : jsString (highlightDepartment.code l) = jsString daneCode := by
        simpa [matchesCode] using hl
      have hnone : ∀ layer ∈ rest, matchesCode daneCode layer = false := by
        have hlen : (rest.filter (matchesCode daneCode)).length = 0 := by
          simpa [List.filter_cons, hl] using h
        have hnil := List.length_eq_zero.mp hlen
        intro layer hm
        have := List.filter_eq_nil_iff.mp hnil layer hm
        simpa using this
      refine ⟨0, ?_, ?_⟩
      · simp [highlightDepartment.eachLayer, hl2,
          eachLayer_no_match reset daneCode rest (i + 1) (some i) hnone]
      · simp only [highlightDepartment.eachLayer, hl2, if_true,
          eachLayer_no_match reset daneCode rest (i + 1) (some i) hnone]
        simp only [List.modify, List.modifyTailIdx, List.modifyHead, List.map_cons, hl, if_true]
        congr 1
        apply List.map_congr_left
        intro layer hm
        simp [hnone layer hm]
    · have hl2 : ¬ jsString (highlightDepartment.code l) = jsString daneCode := by
        simpa [matchesCode] using hl
      have hrest : (rest.filter (matchesCode daneCode)).length = 1 := by
        simpa [List.filter_cons, hl] using h
      obtain ⟨k, hk1, hk2⟩ := ih (i + 1) found hrest
      refine ⟨k + 1, ?_, ?_⟩
      · simp only [highlightDepartment.eachLayer, hl2, if_false, hk1]
        congr 1
        omega
      · simp only [highlightDepartment.eachLayer, hl2, if_false]
        have hmod : ∀ (x : Layer) (xs : List Layer),
            (x :: xs).modify highlighted (k + 1) = x :: xs.modify highlighted k := by
          intro x xs; rfl
        rw [hmod, hk2]
        simp [hl]

theorem highlightDepartment_layers_unique (reset : Layer → Layer) (daneCode : JsValue)
    (layers : List Layer)
    (h : (layers.filter (matchesCode daneCode)).length = 1) :
    highlightDepartment.layers reset daneCode layers =
      layers.map (fun layer =>
        if matchesCode daneCode layer then highlighted layer else reset layer) := by
  obtain ⟨k, hk1, hk2⟩ := eachLayer_unique_match reset daneCode layers 0 none h
  unfold highlightDepartment.layers
  simp only [hk1, Nat.zero_add]
  exact hk2

theorem setStyle_withProps (s : AppState) (options : PathOptions) (props : Properties) :
    setStyle options (getFeatureStyle.withProps s props) = getFeatureStyle.withProps s props := by
  rcases withProps_cases s props with h | h <;> rw [h] <;> rfl

theorem resetStyle_options (s : AppState) (layer : Layer) :
    getFeatureStyle s (resetStyle s layer).feature = .ok (resetStyle s layer).options := by
  simp [resetStyle, setStyle_withProps, getFeatureStyle_layer_feature]

theorem carriesHighlight_highlighted (layer : Layer) :
    carriesHighlight (highlighted layer) = true := by
  simp [carriesHighlight, highlighted, setStyle, styleHighlight]

theorem carriesHighlight_resetStyle (s : AppState) (layer : Layer) :
    carriesHighlight (resetStyle s layer) = false := by
  simp only [carriesHighlight, resetStyle, setStyle_withProps]
  rcases withProps_cases s layer.properties with h | h <;> rw [h] <;> decide

theorem carriesHighlight_legacy_resetStyle (layer : Layer) :
    carriesHighlight (Legacy.resetStyleOfLayer layer) = false := by
  simp [carriesHighlight, Legacy.resetStyleOfLayer, setStyle, styleDefault, styleHighlight]

theorem matchesCode_of_properties_eq (daneCode : JsValue) (a b : Layer)
    (h : a.properties = b.properties) : matchesCode daneCode a = matchesCode daneCode b := by
  simp [matchesCode, highlightDepartment.code, h]

/-- Shape of the layer list once the single matching layer is highlighted and
every other layer is reset: what an observer of the map can tell. -/
theorem highlight_or_reset_map (reset : Layer → Layer) (daneCode : JsValue)
    (layers : List Layer)
    (hfeat : ∀ layer, (reset layer).properties = layer.properties)
    (hplain : ∀ layer, carriesHighlight (reset layer) = false)
    (h : (layers.filter (matchesCode daneCode)).length = 1) :
    ((layers.map (fun layer =>
        if matchesCode daneCode layer then highlighted layer else reset layer)).map
        (fun layer => layer.feature) = layers.map (fun layer => layer.feature)) ∧
    ((layers.map (fun layer =>
        if matchesCode daneCode layer then highlighted layer else reset layer)).filter
        carriesHighlight).length = 1 ∧
    (∀ layer ∈ layers.map (fun layer =>
        if matchesCode daneCode layer then highlighted layer else reset layer),
      (carriesHighlight layer = true ↔ matchesCode daneCode layer = true)) := by
  have hkey : ∀ layer : Layer,
      carriesHighlight (if matchesCode daneCode layer then highlighted layer else reset layer)
        = matchesCode daneCode layer := by
    intro layer
    by_cases hm : matchesCode daneCode layer = true
    · simp [hm, carriesHighlight_highlighted]
    · simp [hm, hplain]
  have hfeat2 : ∀ layer : Layer,
      (if matchesCode daneCode layer then highlighted layer else reset layer).properties
        = layer.properties := by
    intro layer
    by_cases hm : matchesCode daneCode layer = true
    · simp [hm, highlighted]
    · simp [hm, hfeat]
  refine ⟨?_, ?_, ?_⟩
  · rw [List.map_map]
    apply List.map_congr_left
    intro layer _
    simp only [Function.comp, Layer.feature, hfeat2 layer]
  · rw [List.filter_map, List.length_map]
    have : (carriesHighlight ∘ fun layer =>
        if matchesCode daneCode layer then highlighted layer else reset layer)
        = matchesCode daneCode := by
      funext layer
      exact hkey layer
    rw [this]
    exact h
  · intro layer hmem
    obtain ⟨l0, _, rfl⟩ := List.mem_map.mp hmem
    rw [hkey l0, matchesCode_of_properties_eq daneCode _ l0 (hfeat2 l0)]

theorem selectBank_departmentsLayer (s : AppState) (bank : Bank) (itemElement : Nat)
    (layers : List Layer) (hs : s.departmentsLayer = some layers)
    (hcode : truthy bank.dane_code = true) :
    (selectBank s bank itemElement).departmentsLayer =
      some (highlightDepartment.layers (resetStyle s) bank.dane_code layers) := by
  simp only [selectBank, hcode, if_true, highlightDepartment, hs]
  rfl

/-! ## Lemmas on `highlightDepartment` of `src/app.js` -/

theorem modify_map_ofLayer (layers : List Layer) (k : Nat) :
    (layers.map Legacy.Layer.ofLayer).modify
        (fun layer => { layer with options := setStyle layer.options styleHighlight }) k =
      (layers.modify highlighted k).map Legacy.Layer.ofLayer := by
  induction layers generalizing k with
  | nil => cases k <;> rfl
  | cons l rest ih =>
    cases k with
    | zero => rfl
    | succ k =>
      have h1 : ∀ (f : Legacy.Layer → Legacy.Layer) (x : Legacy.Layer) (xs : List Legacy.Layer),
          (x :: xs).modify f (k + 1) = x :: xs.modify f k := by
        intro f x xs; rfl
      have h2 : (l :: rest).modify highlighted (k + 1) = l :: rest.modify highlighted k := rfl
      rw [List.map_cons, h1, ih, h2, List.map_cons]

/-- On layers whose features all have a properties object the loop of
`src/app.js` throws nothing and does what the loop of `src/js/app.js` does
with `styleDefault` as the reset style. -/
theorem legacy_eachLayer_ofLayer (daneCode : JsValue) (layers : List Layer) (i : Nat)
    (found : Option Nat) :
    Legacy.highlightDepartment.eachLayer daneCode (layers.map Legacy.Layer.ofLayer) i found =
      ((none, (highlightDepartment.eachLayer Legacy.resetStyleOfLayer daneCode layers i found).1),
        (highlightDepartment.eachLayer Legacy.resetStyleOfLayer daneCode layers i found).2.map
          Legacy.Layer.ofLayer) := by
  induction layers generalizing i found with
  | nil => rfl
  | cons l rest ih =>
    have hprops : (Legacy.Layer.ofLayer l).feature.props = .ok l.properties := rfl
    have hreset : Legacy.resetStyle (Legacy.Layer.ofLayer l)
        = Legacy.Layer.ofLayer (Legacy.resetStyleOfLayer l) := rfl
    by_cases hm : jsString (highlightDepartment.code l) = jsString daneCode
    · have hm2 : jsString (jsOr (jsOr l.properties.DPTO_CCDGO l.properties.COD_DANE)
          l.properties.id) = jsString daneCode := hm
      simp only [List.map_cons, Legacy.highlightDepartment.eachLayer, hprops, hm2, if_true,
        highlightDepartment.eachLayer, hm, ih]
    · have hm2 : ¬ jsString (jsOr (jsOr l.properties.DPTO_CCDGO l.properties.COD_DANE)
          l.properties.id) = jsString daneCode := hm
      simp only [List.map_cons, Legacy.highlightDepartment.eachLayer, hprops, hm2, if_false,
        highlightDepartment.eachLayer, hm, ih, hreset]

theorem legacy_highlightDepartment_ofLayer (t : Legacy.AppState) (daneCode : JsValue)
    (layers : List Layer) (ht : t.departmentsLayer = some (layers.map Legacy.Layer.ofLayer)) :
    Legacy.highlightDepartment t daneCode =
      ({ t with
          departmentsLayer :=
            some ((highlightDepartment.layers Legacy.resetStyleOfLayer daneCode layers).map
              Legacy.Layer.ofLayer) }, none) := by
  unfold Legacy.highlightDepartment
  rw [ht]
  simp only [legacy_eachLayer_ofLayer, highlightDepartment.layers]
  cases h : (highlightDepartment.eachLayer Legacy.resetStyleOfLayer daneCode layers 0 none).1 with
  | none => rfl
  | some k =>
    simp only [modify_map_ofLayer]
    rfl

theorem legacy_selectBank_ofLayer (t : Legacy.AppState) (bank : Bank)
    (itemElement : Nat) (layers : List Layer)
    (ht : t.departmentsLayer = some (layers.map Legacy.Layer.ofLayer))
    (hcode : truthy bank.dane_code = true) :
    (Legacy.selectBank t bank itemElement).1.departmentsLayer =
      some ((highlightDepartment.layers Legacy.resetStyleOfLayer bank.dane_code layers).map
        Legacy.Layer.ofLayer) ∧
    (Legacy.selectBank t bank itemElement).2 = none := by
  simp only [Legacy.selectBank, hcode, if_true]
  rw [legacy_highlightDepartment_ofLayer _ _ layers (by simpa using ht)]
  exact ⟨rfl, rfl⟩

/-! ## Claims on the click on a bank and on the home control -/

/-- C5 (as stated, refuted): after the bank of department `"05"` was selected,
clicking the bank without code leaves `"05"` highlighted, and clicking the bank
coded `"99"`, which no department has, leaves no layer highlighted. -/
theorem selectBank_highlight_counterexample :
    highlightedCodes (clickBankItem mixedState 0) = ["05"] ∧
    highlightedCodes (clickBankItem (clickBankItem mixedState 0) 1) = ["05"] ∧
    jsString (bankWithCode "Banco C" .undefined).dane_code ≠ "05" ∧
    highlightedCodes (clickBankItem (clickBankItem mixedState 0) 2) = [] := by
  decide

/-- C5 (amended): when the department layer is loaded, the bank has a truthy
`dane_code` and exactly one layer has that code (compared as strings), then
after `selectBank` exactly one layer carries the highlight style, a layer
carries it if and only if its code is the code of the bank, and every other
layer has been reset to its data derived style; the features are unchanged.
The same holds for `src/app.js` on layers whose features have a properties
object: `selectBank` throws nothing and a reset layer gets `styleDefault`. -/
theorem selectBank_highlights_own_department (s : AppState) (t : Legacy.AppState)
    (bank : Bank) (itemElement : Nat) (layers legacyLayers : List Layer)
    (hs : s.departmentsLayer = some layers)
    (ht : t.departmentsLayer = some (legacyLayers.map Legacy.Layer.ofLayer))
    (hcode : truthy bank.dane_code = true)
    (hone : (layers.filter (matchesCode bank.dane_code)).length = 1)
    (honeLegacy : (legacyLayers.filter (matchesCode bank.dane_code)).length = 1) :
    (∃ after, (selectBank s bank itemElement).departmentsLayer = some after ∧
      after.map (fun layer => layer.feature) = layers.map (fun layer => layer.feature) ∧
      (after.filter carriesHighlight).length = 1 ∧
      (∀ layer ∈ after,
        (carriesHighlight layer = true ↔ matchesCode bank.dane_code layer = true)) ∧
      (∀ layer ∈ after, matchesCode bank.dane_code layer = false →
        getFeatureStyle s layer.feature = .ok layer.options)) ∧
    (∃ after : List Layer, (Legacy.selectBank t bank itemElement).1.departmentsLayer
        = some (after.map Legacy.Layer.ofLayer) ∧
      (Legacy.selectBank t bank itemElement).2 = none ∧
      after.map (fun layer => layer.feature) = legacyLayers.map (fun layer => layer.feature) ∧
      (after.filter carriesHighlight).length = 1 ∧
      (∀ layer ∈ after,
        (carriesHighlight layer = true ↔ matchesCode bank.dane_code layer = true)) ∧
      (∀ layer ∈ after, matchesCode bank.dane_code layer = false →
        layer.options = styleDefault)) := by
  constructor
  · refine ⟨_, selectBank_departmentsLayer s bank itemElement layers hs hcode, ?_⟩
    rw [highlightDepartment_layers_unique _ _ _ hone]
    obtain ⟨h1, h2, h3⟩ := highlight_or_reset_map (resetStyle s) bank.dane_code layers
      (fun _ => rfl) (carriesHighlight_resetStyle s) hone
    refine ⟨h1, h2, h3, ?_⟩
    intro layer hmem hno
    obtain ⟨l0, _, rfl⟩ := List.mem_map.mp hmem
    by_cases hm : matchesCode bank.dane_code l0 = true
    · rw [if_pos hm] at hno
      rw [matchesCode_of_properties_eq bank.dane_code (highlighted l0) l0 rfl, hm] at hno
      exact absurd hno (by decide)
    · rw [if_neg hm]
      exact resetStyle_options s l0
  · obtain ⟨hl1, hl2⟩ := legacy_selectBank_ofLayer t bank itemElement legacyLayers ht hcode
    refine ⟨_, hl1, hl2, ?_⟩
    rw [highlightDepartment_layers_unique _ _ _ honeLegacy]
    obtain ⟨h1, h2, h3⟩ := highlight_or_reset_map Legacy.resetStyleOfLayer bank.dane_code
      legacyLayers (fun _ => rfl) carriesHighlight_legacy_resetStyle honeLegacy
    refine ⟨h1, h2, h3, ?_⟩
    intro layer hmem hno
    obtain ⟨l0, _, rfl⟩ := List.mem_map.mp hmem
    by_cases hm : matchesCode bank.dane_code l0 = true
    · rw [if_pos hm] at hno
      rw [matchesCode_of_properties_eq bank.dane_code (highlighted l0) l0 rfl, hm] at hno
      exact absurd hno (by decide)
    · rw [if_neg hm]
      rfl

/-- Witness of `selectBank_highlights_own_department`: the scenario, with the
first bank of department `"05"` clicked. -/
theorem selectBank_highlights_own_department_witness :
    (∃ after, (selectBank scenarioState (bankWithCode "Banco A" (.string "05")) 0).departmentsLayer
        = some after ∧
      after.map (fun layer => layer.feature) = scenarioLayers.map (fun layer => layer.feature) ∧
      (after.filter carriesHighlight).length = 1 ∧
      (∀ layer ∈ after,
        (carriesHighlight layer = true ↔
          matchesCode (bankWithCode "Banco A" (.string "05")).dane_code layer = true)) ∧
      (∀ layer ∈ after,
        matchesCode (bankWithCode "Banco A" (.string "05")).dane_code layer = false →
        getFeatureStyle scenarioState layer.feature = .ok layer.options)) ∧
    (∃ after : List Layer, (Legacy.selectBank Legacy.scenarioState
          (bankWithCode "Banco A" (.string "05")) 0).1.departmentsLayer
        = some (after.map Legacy.Layer.ofLayer) ∧
      (Legacy.selectBank Legacy.scenarioState
          (bankWithCode "Banco A" (.string "05")) 0).2 = none ∧
      after.map (fun layer => layer.feature)
        = Legacy.scenarioLayers.map (fun layer => layer.feature) ∧
      (after.filter carriesHighlight).length = 1 ∧
      (∀ layer ∈ after,
        (carriesHighlight layer = true ↔
          matchesCode (bankWithCode "Banco A" (.string "05")).dane_code layer = true)) ∧
      (∀ layer ∈ after,
        matchesCode (bankWithCode "Banco A" (.string "05")).dane_code layer = false →
        layer.options = styleDefault)) :=
  selectBank_highlights_own_department scenarioState Legacy.scenarioState
    (bankWithCode "Banco A" (.string "05")) 0 scenarioLayers Legacy.scenarioLayers
    (by decide) (by decide) (by decide) (by decide) (by decide)

/-- The selection does not survive a hover: after the bank of department `"05"`
was selected, mouseover and mouseout on that polygon leave no layer with the
highlight style, since `resetHighlight` only resets and does not put the
selection style back. -/
theorem resetHighlight_drops_selection :
    highlightedCodes (clickBankItem mixedState 0) = ["05"] ∧
    highlightedCodes (resetHighlight (highlightFeature (clickBankItem mixedState 0) 0) 0)
      = [] := by
  decide

theorem homeControl_onclick_hidden (s : AppState) :
    (HomeControl.onclick s).infoPanel.hidden = true := by
  cases hL : s.departmentsLayer <;> simp [HomeControl.onclick, renderBankList, hL]

/-- C6: from every prior state the click handler of the home control ends in
the Idle state (panel hidden, no active entry, every polygon reset to its data
derived style, the full `banksData` listed in order); the data and the
features of the map are untouched. -/
theorem homeControl_onclick_idle (s : AppState) :
    Idle (HomeControl.onclick s) ∧
    (HomeControl.onclick s).banksData = s.banksData ∧
    (HomeControl.onclick s).activeDaneCodes = s.activeDaneCodes ∧
    (HomeControl.onclick s).bankList =
      s.banksData.map (fun bank => ListNode.bankItem bank false) ∧
    (HomeControl.onclick s).departmentsLayer =
      s.departmentsLayer.map (fun layers => layers.map (resetStyle s)) ∧
    (∀ layer, (resetStyle s layer).feature = layer.feature ∧
      getFeatureStyle s layer.feature = .ok (resetStyle s layer).options) := by
  have hlist : (HomeControl.onclick s).bankList =
      s.banksData.map (fun bank => ListNode.bankItem bank false) := by
    cases hL : s.departmentsLayer <;> simp [HomeControl.onclick, renderBankList, hL]
  have hdata : (HomeControl.onclick s).banksData = s.banksData := by
    cases hL : s.departmentsLayer <;> simp [HomeControl.onclick, renderBankList, hL]
  have hcodes : (HomeControl.onclick s).activeDaneCodes = s.activeDaneCodes := by
    cases hL : s.departmentsLayer <;> simp [HomeControl.onclick, renderBankList, hL]
  have hlayers : (HomeControl.onclick s).departmentsLayer =
      s.departmentsLayer.map (fun layers => layers.map (resetStyle s)) := by
    cases hL : s.departmentsLayer <;> simp [HomeControl.onclick, renderBankList, hL]
  have hstyle : ∀ feature, getFeatureStyle (HomeControl.onclick s) feature
      = getFeatureStyle s feature := by
    intro feature
    simp [getFeatureStyle, getFeatureStyle.withProps, hcodes]
  refine ⟨⟨homeControl_onclick_hidden s, ?_, ?_, ?_, ?_⟩, hdata, hcodes, hlist, hlayers, ?_⟩
  · intro node hmem
    rw [hlist] at hmem
    obtain ⟨b, _, hb⟩ := List.mem_map.mp hmem
    subst hb
    rfl
  · rw [hlist, hdata]
  · rw [hlist, hdata]
    exact renderedBanks_map_bankItem _ _
  · intro layer hmem
    rw [hlayers] at hmem
    cases hs : s.departmentsLayer with
    | none => rw [hs] at hmem; simp at hmem
    | some before =>
      rw [hs] at hmem
      simp only [Option.map_some', Option.getD_some] at hmem
      obtain ⟨l0, _, rfl⟩ := List.mem_map.mp hmem
      rw [hstyle]
      exact resetStyle_options s l0
  · intro layer
    exact ⟨rfl, resetStyle_options s layer⟩

theorem highlightDepartment_infoPanel (s : AppState) (daneCode : JsValue) :
    (highlightDepartment s daneCode).infoPanel = s.infoPanel := by
  unfold highlightDepartment
  cases s.departmentsLayer <;> rfl

theorem selectBank_infoPanel (s : AppState) (bank : Bank) (itemElement : Nat) :
    (selectBank s bank itemElement).infoPanel =
      { bankName := bank.bank, bankAddress := bank.address, deptName := bank.name,
        hidden := false } := by
  unfold selectBank
  by_cases h : truthy bank.dane_code = true
  · simp [h, highlightDepartment_infoPanel]
  · simp [h]

/-- C7: the info panel (bank name, address, department name, visibility) after
`selectBank b`, a home click and `selectBank b` again equals the info panel
after the first `selectBank b`, for every bank, every prior state and every
clicked list position; in both cases it shows the three fields of `b` and is
visible. -/
theorem selectBank_home_selectBank_infoPanel (s : AppState) (bank : Bank)
    (itemElement itemElementAgain : Nat) :
    (selectBank (HomeControl.onclick (selectBank s bank itemElement)) bank
        itemElementAgain).infoPanel = (selectBank s bank itemElement).infoPanel ∧
    (selectBank s bank itemElement).infoPanel =
      { bankName := bank.bank, bankAddress := bank.address, deptName := bank.name,
        hidden := false } ∧
    (HomeControl.onclick (selectBank s bank itemElement)).infoPanel.hidden = true := by
  refine ⟨?_, selectBank_infoPanel _ _ _, ?_⟩
  · rw [selectBank_infoPanel, selectBank_infoPanel]
  · exact homeControl_onclick_hidden _

theorem loadData_tryBlock_failed (s : AppState) (r : Resources) (h : r.failed = true) :
    ∃ error, loadData.tryBlock s r = (s, some error) := by
  obtain ⟨a, b, c, d⟩ := r
  rcases a with ea | _
  · exact ⟨ea, rfl⟩
  rcases b with eb | _
  · exact ⟨eb, rfl⟩
  rcases c with ec | _
  · exact ⟨ec, rfl⟩
  rcases d with ed | _
  · exact ⟨ed, rfl⟩
  simp [Resources.failed, rejected] at h

theorem legacy_loadData_tryBlock_failed (s : Legacy.AppState) (r : Resources)
    (h : r.failed = true) :
    ∃ error, Legacy.loadData.tryBlock s r = .error error := by
  obtain ⟨a, b, c, d⟩ := r
  rcases a with ea | _
  · exact ⟨ea, rfl⟩
  rcases b with eb | _
  · exact ⟨eb, rfl⟩
  rcases c with ec | _
  · exact ⟨ec, rfl⟩
  rcases d with ed | _
  · exact ⟨ed, rfl⟩
  simp [Resources.failed, rejected] at h

/-- C9: when the fetch or the parse of either resource fails, `loadData`
returns normally, appends one error line to the console and changes nothing
else: no call of `initMapLayer` or `renderBankList` is recorded, the layer, the
list, `banksData` and `activeDaneCodes` are as before the load, so on the
fresh page `activeDaneCodes` stays empty and no layer exists.  The same holds
for `loadData` of `src/app.js`. -/
theorem loadData_failure_renders_nothing (s : AppState) (t : Legacy.AppState)
    (bankList : List ListNode) (infoPanel : InfoPanel) (r : Resources)
    (h : r.failed = true) :
    (∃ error, loadData s r =
      { s with console := s.console ++ ["Error loading data: " ++ error] }) ∧
    (loadData s r).calls = s.calls ∧
    (loadData s r).activeDaneCodes = s.activeDaneCodes ∧
    (loadData s r).departmentsLayer = s.departmentsLayer ∧
    (loadData s r).bankList = s.bankList ∧
    (loadData s r).banksData = s.banksData ∧
    (loadData s r).infoPanel = s.infoPanel ∧
    (loadData (pageState bankList infoPanel) r).calls = [] ∧
    (loadData (pageState bankList infoPanel) r).activeDaneCodes = [] ∧
    (loadData (pageState bankList infoPanel) r).departmentsLayer = none ∧
    (loadData (pageState bankList infoPanel) r).bankList = bankList ∧
    (∃ error, Legacy.loadData t r =
      { t with console := t.console ++ ["Error loading data: " ++ error] }) ∧
    (Legacy.loadData t r).calls = t.calls ∧
    (Legacy.loadData t r).departmentsLayer = t.departmentsLayer ∧
    (Legacy.loadData t r).bankList = t.bankList := by
  have key : ∀ s0 : AppState, ∃ error, loadData s0 r =
      { s0 with console := s0.console ++ ["Error loading data: " ++ error] } := by
    intro s0
    obtain ⟨error, he⟩ := loadData_tryBlock_failed s0 r h
    exact ⟨error, by simp [loadData, he]⟩
  have keyLegacy : ∃ error, Legacy.loadData t r =
      { t with console := t.console ++ ["Error loading data: " ++ error] } := by
    obtain ⟨error, he⟩ := legacy_loadData_tryBlock_failed t r h
    exact ⟨error, by simp [Legacy.loadData, he]⟩
  obtain ⟨e1, h1⟩ := key s
  obtain ⟨e2, h2⟩ := key (pageState bankList infoPanel)
  obtain ⟨e3, h3⟩ := keyLegacy
  refine ⟨⟨e1, h1⟩, ?_, ?_, ?_, ?_, ?_, ?_, ?_, ?_, ?_, ?_, ⟨e3, h3⟩, ?_, ?_, ?_⟩
  all_goals first
    | (rw [h1])
    | (rw [h2]; rfl)
    | (rw [h3])

/-- Witness of `loadData_failure_renders_nothing`: the fetch of the bank list
is rejected on a fresh page. -/
theorem loadData_failure_renders_nothing_witness :
    banksFetchFails.failed = true ∧
    (loadData (pageState [] emptyPanel) banksFetchFails).calls = [] ∧
    (loadData (pageState [] emptyPanel) banksFetchFails).activeDaneCodes = [] ∧
    (loadData (pageState [] emptyPanel) banksFetchFails).departmentsLayer = none ∧
    (loadData (pageState [] emptyPanel) banksFetchFails).bankList = [] ∧
    (Legacy.loadData (Legacy.pageState [] emptyPanel) banksFetchFails).calls = [] :=
  have hf : banksFetchFails.failed = true := by decide
  have h := loadData_failure_renders_nothing (pageState [] emptyPanel)
    (Legacy.pageState [] emptyPanel) [] emptyPanel banksFetchFails hf
  ⟨hf, h.2.1, h.2.2.1, h.2.2.2.1, h.2.2.2.2.1, h.2.2.2.2.2.2.2.2.2.2.2.2.1⟩

end MapaBancos
